import Mathlib

/-!
# travel_plan: the AMap integration script (`src/amap-integration.js`)

A shallow embedding of the script's functions, followed by the properties of
the specification that were checked against them.

Modelling conventions.

* A JavaScript string is a Lean `String` (a sequence of Unicode scalar values).
* A JavaScript number is represented by the decimal that `Number::toString`
  prints for it (`JSNumber`); no arithmetic is performed on numbers by the
  script, they are only printed and tested for truthiness.
* A parsed JSON payload is `Json`: a primitive, or an object whose properties
  hold primitives (the endpoints of the script return flat objects).
* The document is a flat list of display regions (`Element`), each with its
  `data-city` / `data-route` anchor and its `innerHTML`.
* Exceptions are `Except JSError _`; `try { .. } catch` is a `match` on it.
-/

namespace Amap

/-! ## JavaScript values -/

/-- A JavaScript exception value (only its message is kept). -/
abbrev JSError := String

/-- A Number, by the decimal that ECMAScript `Number::toString` selects for it:
`finite neg mant exp` is `± mant × 10 ^ exp`; zero is any `finite _ 0 _`. -/
inductive JSNumber where
  | nan
  | infinity (neg : Bool)
  | finite (neg : Bool) (mant : Nat) (exp : Int)
  deriving DecidableEq, Repr

/-- The decimal digits of `mant` without its trailing zeros: the digits of the
integer `s` of `Number::toString`. -/
def significantDigits (mant : Nat) : List Char :=
  ((Nat.toDigits 10 mant).reverse.dropWhile (fun c => c == '0')).reverse

/-- ECMAScript `Number::toString(x, 10)`: with `k` significant digits `s` and
`s × 10 ^ (n - k) = x`, plain notation for `-6 < n ≤ 21` and exponent notation
otherwise. -/
def JSNumber.toString : JSNumber → String
  | .nan => "NaN"
  | .infinity neg => if neg then "-Infinity" else "Infinity"
  | .finite neg mant exp =>
    if mant = 0 then "0" else
    let ds := significantDigits mant
    let k : Int := ds.length
    let n : Int := exp + (Nat.toDigits 10 mant).length
    let body : List Char :=
      if k ≤ n ∧ n ≤ 21 then ds ++ List.replicate (n - k).toNat '0'
      else if 0 < n ∧ n ≤ 21 then ds.take n.toNat ++ ['.'] ++ ds.drop n.toNat
      else if -6 < n ∧ n ≤ 0 then ['0', '.'] ++ List.replicate (-n).toNat '0' ++ ds
      else
        (if ds.length = 1 then ds else ds.take 1 ++ ['.'] ++ ds.drop 1)
          ++ ['e', if n - 1 < 0 then '-' else '+'] ++ Nat.toDigits 10 (n - 1).natAbs
    String.mk ((if neg then ['-'] else []) ++ body)

/-- ToBoolean on a Number: `NaN`, `+0` and `-0` are falsy. -/
def JSNumber.truthy : JSNumber → Bool
  | .nan => false
  | .infinity _ => true
  | .finite _ mant _ => mant != 0

/-- A primitive value: what a property of a parsed payload holds, `undefined`
standing for a property that is missing. -/
inductive Prim where
  | undefined
  | null
  | bool (b : Bool)
  | num (n : JSNumber)
  | str (s : String)
  deriving DecidableEq, Repr

/-- ToString on a primitive, as done by `${...}` in a template literal. -/
def Prim.toString : Prim → String
  | .undefined => "undefined"
  | .null => "null"
  | .bool b => if b then "true" else "false"
  | .num n => n.toString
  | .str s => s

/-- ToBoolean on a primitive. -/
def Prim.truthy : Prim → Bool
  | .undefined => false
  | .null => false
  | .bool b => b
  | .num n => n.truthy
  | .str s => s != ""

/-- The value produced by `response.json()` (or `null`): a primitive or a flat
object, its own properties in order. -/
inductive Json where
  | prim (p : Prim)
  | obj (props : List (String × Prim))
  deriving DecidableEq, Repr

/-- ToBoolean on a payload: every object is truthy, the empty one included. -/
def Json.truthy : Json → Bool
  | .prim p => p.truthy
  | .obj _ => true

/-- Property read `value.key` for the keys the script reads (`status`,
`statusText`, `duration`, `temperature`, `description`): an own property of an
object, otherwise `undefined` (no prototype defines these names). Only applied
to truthy values, on which a property read never throws. -/
def Json.get (j : Json) (key : String) : Prim :=
  match j with
  | .prim _ => .undefined
  | .obj props => (props.lookup key).getD .undefined

/-! ## `encodeURIComponent` -/

/-- Upper-case hexadecimal digit of `n < 16`. -/
def hexDigit (n : Nat) : Char :=
  ['0', '1', '2', '3', '4', '5', '6', '7', '8', '9', 'A', 'B', 'C', 'D', 'E', 'F'].getD n '0'

/-- The escape `%XX` of one octet. -/
def percentEscape (b : Nat) : List Char := ['%', hexDigit (b / 16), hexDigit (b % 16)]

/-- The UTF-8 octets of a code point. -/
def utf8Octets (c : Char) : List Nat :=
  let n := c.toNat
  if n < 0x80 then [n]
  else if n < 0x800 then [0xC0 + n / 64, 0x80 + n % 64]
  else if n < 0x10000 then [0xE0 + n / 4096, 0x80 + (n / 64) % 64, 0x80 + n % 64]
  else [0xF0 + n / 262144, 0x80 + (n / 4096) % 64, 0x80 + (n / 64) % 64, 0x80 + n % 64]

/-- The characters `encodeURIComponent` leaves alone: ASCII letters, digits and
`- _ . ! ~ * ' ( )`. -/
def uriUnreserved (c : Char) : Bool :=
  c.isAlphanum || "-_.!~*'()".toList.contains c

/-- ECMAScript `Encode` over the code points of the string. -/
def encodeChars : List Char → List Char
  | [] => []
  | c :: cs =>
    (if uriUnreserved c then [c] else (utf8Octets c).flatMap percentEscape) ++ encodeChars cs

/-- The global `encodeURIComponent`. -/
def encodeURIComponent (s : String) : String := String.mk (encodeChars s.toList)

/-! ## The document -/

/-- A display region of the page: its anchors and its markup. -/
structure Element where
  dataCity : Option String
  dataRoute : Option String
  innerHTML : String
  deriving DecidableEq, Repr

/-- The attribute an attribute selector of the script tests. -/
inductive Anchor where
  | city
  | route
  deriving DecidableEq, Repr

/-- The value of the anchor attribute on an element, if it has the attribute. -/
def Element.anchor (e : Element) : Anchor → Option String
  | .city => e.dataCity
  | .route => e.dataRoute

/-- The call `document.querySelector('[data-x="key"]')`: the first element, in document
order, whose attribute equals the key. (The selector text is built by
interpolation; it denotes this exact match for every key without a quote,
backslash or line break, as all keys of the script are.) -/
def querySelector (dom : List Element) (a : Anchor) (key : String) : Option Element :=
  dom.find? (fun e => e.anchor a == some key)

/-- The document after `element.innerHTML = html` on the element that
`querySelector` returns for the key. -/
def setInnerHTML (a : Anchor) (key : String) (html : String) : List Element → List Element
  | [] => []
  | e :: es =>
    if e.anchor a == some key then { e with innerHTML := html } :: es
    else e :: setInnerHTML a key html es

/-! ## Traffic display (`updateTrafficDisplay`, lines 348-361) -/

/-- The conditional of line 351, on the value of `traffic.status`. -/
def statusColor (status : Prim) : String :=
  if status = .str "smooth" then "#2ecc71"
  else if status = .str "slow" then "#f39c12"
  else "#e74c3c"

/-- The template literal of lines 353-359. -/
def trafficItemHTML (route color statusText duration : String) : String :=
  "\n            <div class=\"traffic-item\">\n                <span class=\"route-name\">"
    ++ route ++ "</span>\n                <span class=\"traffic-status\" style=\"color: "
    ++ color ++ ";\">" ++ statusText
    ++ "</span>\n                <span class=\"traffic-time\">" ++ duration
    ++ "</span>\n            </div>\n        "

/-- The function `updateTrafficDisplay(route, traffic)` on the document. -/
def updateTrafficDisplay (route : String) (traffic : Json) (dom : List Element) :
    List Element :=
  match querySelector dom .route route with
  | none => dom
  | some _ =>
    if traffic.truthy then
      setInnerHTML .route route
        (trafficItemHTML route (statusColor (traffic.get "status"))
          (traffic.get "statusText").toString (traffic.get "duration").toString) dom
    else dom

/-! ## Weather and traffic refresh (lines 265-345) -/

/-- What `await fetch(url)` resolves to: a response whose `json()` either
yields the parsed body or rejects (the body is not JSON). -/
structure Response where
  json : Except JSError Json

/-- The network: what `await fetch(url)` does for each URL, rejecting on a
network error. -/
abbrev Network := String → Except JSError Response

/-- The page the refresh functions act on: the display regions and the lines
written by `console.error`. -/
structure Page where
  dom : List Element
  console : List String
  deriving DecidableEq, Repr

/-- The async function `getWeatherInfo(city)`: the parsed body, or `null` after
logging when `fetch` or `json()` rejects (the `catch` of lines 273-276). -/
def getWeatherInfo (net : Network) (city : String) (page : Page) :
    Except JSError (Json × Page) :=
  match (net ("/api/weather?city=" ++ encodeURIComponent city)).bind (fun r => r.json) with
  | .ok data => .ok (data, page)
  | .error error =>
    .ok (.prim .null, { page with console := page.console ++ ["天气信息获取失败: " ++ error] })

/-- The async function `getTrafficInfo(route)` (lines 280-290). -/
def getTrafficInfo (net : Network) (route : String) (page : Page) :
    Except JSError (Json × Page) :=
  match (net ("/api/traffic?route=" ++ encodeURIComponent route)).bind (fun r => r.json) with
  | .ok data => .ok (data, page)
  | .error error =>
    .ok (.prim .null, { page with console := page.console ++ ["路况信息获取失败: " ++ error] })

/-- The template literal of lines 320-326. -/
def weatherItemHTML (city temperature description : String) : String :=
  "\n            <div class=\"weather-item\">\n                <h5>" ++ city
    ++ "</h5>\n                <div class=\"weather-temp\">" ++ temperature
    ++ "°C</div>\n                <div class=\"weather-desc\">" ++ description
    ++ "</div>\n            </div>\n        "

/-- The function `updateWeatherDisplay(city, weather)` on the document. -/
def updateWeatherDisplay (city : String) (weather : Json) (dom : List Element) :
    List Element :=
  match querySelector dom .city city with
  | none => dom
  | some _ =>
    if weather.truthy then
      setInnerHTML .city city
        (weatherItemHTML city (weather.get "temperature").toString
          (weather.get "description").toString) dom
    else dom

/-- The constant `cities` of `updateWeatherInfo`. -/
def cities : List String := ["北京", "赤峰", "承德", "克什克腾旗"]

/-- The constant `mainRoutes` of `updateTrafficInfo`. -/
def mainRoutes : List String :=
  ["北京-赤峰", "赤峰-克什克腾旗", "克什克腾旗-乌兰布统", "乌兰布统-塞罕坝"]

/-- The `for (const city of ...)` loop of `updateWeatherInfo`, over any list of
cities: a rejection of the awaited call would leave the loop. -/
def updateWeatherLoop (net : Network) : List String → Page → Except JSError Page
  | [], page => .ok page
  | city :: rest, page =>
    match getWeatherInfo net city page with
    | .error e => .error e
    | .ok (weather, page1) =>
      if weather.truthy then
        updateWeatherLoop net rest
          { page1 with dom := updateWeatherDisplay city weather page1.dom }
      else updateWeatherLoop net rest page1

/-- The async function `updateWeatherInfo()`: the fulfilled page, or the
rejection. -/
def updateWeatherInfo (net : Network) (page : Page) : Except JSError Page :=
  updateWeatherLoop net cities page

/-- The `for (const route of ...)` loop of `updateTrafficInfo`. -/
def updateTrafficLoop (net : Network) : List String → Page → Except JSError Page
  | [], page => .ok page
  | route :: rest, page =>
    match getTrafficInfo net route page with
    | .error e => .error e
    | .ok (traffic, page1) =>
      if traffic.truthy then
        updateTrafficLoop net rest
          { page1 with dom := updateTrafficDisplay route traffic page1.dom }
      else updateTrafficLoop net rest page1

/-- The async function `updateTrafficInfo()`. -/
def updateTrafficInfo (net : Network) (page : Page) : Except JSError Page :=
  updateTrafficLoop net mainRoutes page

/-! ## External navigation (`navigateToAmapLocation`, lines 249-263) -/

/-- A non-negative decimal literal of the source, `mant × 10 ^ exp`. -/
def dec (mant : Nat) (exp : Int) : JSNumber := .finite false mant exp

/-- An entry of `routePoints` in `addOverviewMarkers`. -/
structure RoutePoint where
  lnglat : JSNumber × JSNumber
  name : String
  day : String
  deriving DecidableEq, Repr

/-- The constant `routePoints` of `addOverviewMarkers`. -/
def routePoints : List RoutePoint :=
  [ { lnglat := (dec 11665 (-2), dec 4013 (-2)), name := "北京顺义", day := "Day 1" },
    { lnglat := (dec 11896 (-2), dec 4227 (-2)), name := "赤峰市", day := "Day 1" },
    { lnglat := (dec 11902 (-2), dec 4211 (-2)), name := "玉龙沙湖", day := "Day 2" },
    { lnglat := (dec 11755 (-2), dec 4326 (-2)), name := "克什克腾旗", day := "Day 2" },
    { lnglat := (dec 11664 (-2), dec 4332 (-2)), name := "达里湖", day := "Day 3" },
    { lnglat := (dec 11723 (-2), dec 4352 (-2)), name := "热阿线", day := "Day 3" },
    { lnglat := (dec 11687 (-2), dec 4235 (-2)), name := "乌兰布统", day := "Day 3" },
    { lnglat := (dec 11723 (-2), dec 4202 (-2)), name := "塞罕坝", day := "Day 4" } ]

/-- The constant `routePath` of `addRoutePolyline`. -/
def routePath : List (JSNumber × JSNumber) :=
  [ (dec 11665 (-2), dec 4013 (-2)),
    (dec 11896 (-2), dec 4227 (-2)),
    (dec 11902 (-2), dec 4211 (-2)),
    (dec 11755 (-2), dec 4326 (-2)),
    (dec 11664 (-2), dec 4332 (-2)),
    (dec 11723 (-2), dec 4352 (-2)),
    (dec 11687 (-2), dec 4235 (-2)),
    (dec 11723 (-2), dec 4202 (-2)),
    (dec 11665 (-2), dec 4013 (-2)) ]

/-- An entry of `navPoints` in `addNavigationMarkers`. -/
structure NavPoint where
  lnglat : JSNumber × JSNumber
  name : String
  type : String
  color : String
  deriving DecidableEq, Repr

/-- The constant `navPoints` of `addNavigationMarkers`. -/
def navPoints : List NavPoint :=
  [ { lnglat := (dec 118956 (-3), dec 42275 (-3)), name := "赤峰维也纳国际酒店",
      type := "hotel", color := "#e74c3c" },
    { lnglat := (dec 117545 (-3), dec 43264 (-3)), name := "克什克腾旗草原度假酒店",
      type := "hotel", color := "#e74c3c" },
    { lnglat := (dec 116872 (-3), dec 42354 (-3)), name := "乌兰布统草原假日酒店",
      type := "hotel", color := "#e74c3c" },
    { lnglat := (dec 117234 (-3), dec 42024 (-3)), name := "塞罕坝森林酒店",
      type := "hotel", color := "#e74c3c" },
    { lnglat := (dec 119021 (-3), dec 42110 (-3)), name := "玉龙沙湖景区",
      type := "scenic", color := "#3498db" },
    { lnglat := (dec 116644 (-3), dec 43318 (-3)), name := "达里湖南岸景区",
      type := "scenic", color := "#3498db" },
    { lnglat := (dec 117234 (-3), dec 43523 (-3)), name := "热阿线起点",
      type := "scenic", color := "#3498db" },
    { lnglat := (dec 116872 (-3), dec 42354 (-3)), name := "乌兰布统景区",
      type := "scenic", color := "#3498db" },
    { lnglat := (dec 117234 (-3), dec 42024 (-3)), name := "塞罕坝国家森林公园",
      type := "scenic", color := "#3498db" },
    { lnglat := (dec 118885 (-3), dec 42245 (-3)), name := "赤峰市车管所",
      type := "service", color := "#f39c12" },
    { lnglat := (dec 116665 (-3), dec 43298 (-3)), name := "达里湖加油站",
      type := "service", color := "#f39c12" },
    { lnglat := (dec 116862 (-3), dec 42364 (-3)), name := "乌兰布统游客中心",
      type := "service", color := "#f39c12" } ]

/-- The own properties of the object literal `iconMap`. -/
def iconMap : List (String × String) :=
  [("hotel", "🏨"), ("scenic", "📷"), ("service", "⛽")]

/-- The property names every object literal inherits from `Object.prototype`. -/
def objectPrototypeNames : List String :=
  ["constructor", "hasOwnProperty", "isPrototypeOf", "propertyIsEnumerable",
   "toLocaleString", "toString", "valueOf", "__proto__", "__defineGetter__",
   "__defineSetter__", "__lookupGetter__", "__lookupSetter__"]

/-- The result of the property read `iconMap[key]`. -/
inductive Lookup where
  | own (value : String)
  | inherited (name : String)
  | undefined
  deriving DecidableEq, Repr

/-- The property read `iconMap[point.type]`: an own property, else a member
inherited from `Object.prototype`, else `undefined`. A property read on an
object never throws. -/
def iconLookup (type : String) : Lookup :=
  match iconMap.lookup type with
  | some icon => .own icon
  | none => if type ∈ objectPrototypeNames then .inherited type else .undefined

/-- ToString of a looked-up value inside a template literal; `hostText` is the
host-defined text of the built-in member of `Object.prototype` of that name. -/
def Lookup.toString (hostText : String → String) : Lookup → String
  | .own value => value
  | .inherited name => hostText name
  | .undefined => "undefined"

/-- The options passed to `new AMap.Marker`. -/
structure Marker where
  position : JSNumber × JSNumber
  title : String
  content : String
  deriving DecidableEq, Repr

/-- The marker options built for one overview point (lines 94-98); `index` is
the `forEach` index. -/
def overviewMarker (point : RoutePoint) (index : Nat) : Marker :=
  { position := point.lnglat
    title := point.name
    content := "<div style=\"background: #667eea; color: white; padding: 5px 10px; "
      ++ "border-radius: 15px; font-size: 12px; white-space: nowrap;\">"
      ++ Nat.repr (index + 1) ++ "</div>" }

/-- The marker options built for one navigation point (lines 173-177). Nothing
in the construction throws: the result is always `ok`. -/
def navigationMarker (hostText : String → String) (point : NavPoint) :
    Except JSError Marker :=
  .ok { position := point.lnglat
        title := point.name
        content := "<div style=\"background: " ++ point.color
          ++ "; color: white; padding: 3px 8px; border-radius: 10px; font-size: 14px;\">"
          ++ (iconLookup point.type).toString hostText ++ "</div>" }

/-! ## The class `AmapIntegration` (lines 2-246) -/

/-- An operation of the map SDK performed by the class. The text of an info
window does not depend on anything the properties below concern and is not
kept. -/
inductive SdkOp where
  | newMap (container : String)
  | newMarker (options : Marker)
  | newInfoWindow
  | markerOnClick
  | mapAdd
  | newPolyline (path : List (JSNumber × JSNumber))
  | setFitView
  deriving DecidableEq, Repr

/-- The host environment of the class: whether each SDK operation returns or
throws, and the text the host gives a built-in member of `Object.prototype`. -/
structure Host where
  sdk : SdkOp → Except JSError Unit
  hostText : String → String

/-- A method of the class. -/
inductive Method where
  | setupMapContainers
  | initOverviewMap
  | initNavigationMap
  | addOverviewMarkers
  | addRoutePolyline
  | addNavigationMarkers
  | fallbackToLeaflet
  deriving DecidableEq, Repr

/-- What the class does, in order: a method entered, an SDK operation
performed, a line written to the console. -/
inductive Event where
  | enter (method : Method)
  | sdk (op : SdkOp)
  | console (line : String)
  deriving DecidableEq, Repr

/-- The window the class runs in: whether the global `window.AMap` is defined,
the `src` of the scripts appended to `document.head`, the markup of the
elements `#overviewMap` and `#navigationMap` when they exist, and the events
so far. -/
structure Window where
  AMap : Bool
  headScripts : List String
  overviewMap : Option String
  navigationMap : Option String
  events : List Event
  deriving DecidableEq, Repr

/-- The state of the promise `loadAmapScript` returns, at the moment it
returns. -/
inductive PromiseState where
  | resolved
  | pending
  deriving DecidableEq, Repr

/-- The `src` of the loader script (line 31). -/
def amapScriptSrc : String :=
  "https://webapi.amap.com/maps?v=2.0&key=YOUR_AMAP_KEY&plugin=AMap.Driving,AMap.Geocoder"

/-- The method `loadAmapScript()` up to its return: the executor of the promise
runs at once. -/
def loadAmapScript (w : Window) : Window × PromiseState :=
  if w.AMap then (w, .resolved)
  else ({ w with headScripts := w.headScripts ++ [amapScriptSrc] }, .pending)

/-- What happens to a loader script after it was appended: its `onload` fires
(the script having defined `window.AMap` or not), its `onerror` fires, or
neither ever does. -/
inductive ScriptEvent where
  | load (definesAMap : Bool)
  | error
  | none
  deriving DecidableEq, Repr

/-- How `await this.loadAmapScript()` ends. -/
inductive Settled where
  | fulfilled
  | rejected (error : JSError)
  | never
  deriving DecidableEq, Repr

/-- The `await` of line 14 on the promise of `loadAmapScript`. -/
def awaitLoad (p : PromiseState) (script : ScriptEvent) (w : Window) : Settled × Window :=
  match p, script with
  | .resolved, _ => (.fulfilled, w)
  | .pending, .load definesAMap => (.fulfilled, { w with AMap := w.AMap || definesAMap })
  | .pending, .error => (.rejected "Failed to load AMap", w)
  | .pending, .none => (.never, w)

/-- A piece of synchronous code of the class: it returns or throws, and the
effects it had before throwing stay. -/
abbrev Act := Window → Except JSError Unit × Window

/-- Sequencing `a; b`: `b` does not run when `a` throws. -/
def Act.andThen (a b : Act) : Act := fun w =>
  match a w with
  | (.ok _, w1) => b w1
  | (.error e, w1) => (.error e, w1)

/-- A block of statements. -/
def Act.block : List Act → Act
  | [] => fun w => (.ok (), w)
  | a :: rest => a.andThen (Act.block rest)

/-- The loop `array.forEach(f)`. -/
def forEach {α : Type} (f : α → Act) : List α → Act
  | [] => fun w => (.ok (), w)
  | x :: xs => (f x).andThen (forEach f xs)

/-- Entering a method. -/
def enter (method : Method) : Act := fun w =>
  (.ok (), { w with events := w.events ++ [.enter method] })

/-- Performing an SDK operation. -/
def sdkCall (host : Host) (op : SdkOp) : Act := fun w =>
  (host.sdk op, { w with events := w.events ++ [.sdk op] })

/-- The method `addOverviewMarkers()`. -/
def addOverviewMarkers (host : Host) : Act :=
  (enter .addOverviewMarkers).andThen
    (forEach (fun (indexed : Nat × RoutePoint) =>
      Act.block
        [ sdkCall host (.newMarker (overviewMarker indexed.2 indexed.1)),
          sdkCall host .newInfoWindow,
          sdkCall host .markerOnClick,
          sdkCall host .mapAdd ])
      routePoints.enum)

/-- The method `addRoutePolyline()`. -/
def addRoutePolyline (host : Host) : Act :=
  Act.block
    [ enter .addRoutePolyline,
      sdkCall host (.newPolyline routePath),
      sdkCall host .mapAdd,
      sdkCall host .setFitView ]

/-- The method `addNavigationMarkers()`. -/
def addNavigationMarkers (host : Host) : Act :=
  (enter .addNavigationMarkers).andThen
    (forEach (fun (point : NavPoint) =>
      match navigationMarker host.hostText point with
      | .error e => fun w => (.error e, w)
      | .ok marker =>
        Act.block
          [ sdkCall host (.newMarker marker),
            sdkCall host .newInfoWindow,
            sdkCall host .markerOnClick,
            sdkCall host .mapAdd ])
      navPoints)

/-- The method `initOverviewMap()`. -/
def initOverviewMap (host : Host) : Act :=
  (enter .initOverviewMap).andThen fun w =>
    match w.overviewMap with
    | Option.none => (.ok (), w)
    | some _ =>
      if !w.AMap then (.ok (), w)
      else
        let markup := "<div id=\"overview-map-container\" style=\"width: 100%; height: 400px;\"></div>"
        Act.block
          [ sdkCall host (.newMap "overview-map-container"),
            addOverviewMarkers host,
            addRoutePolyline host ]
          { w with overviewMap := some markup }

/-- The method `initNavigationMap()`. -/
def initNavigationMap (host : Host) : Act :=
  (enter .initNavigationMap).andThen fun w =>
    match w.navigationMap with
    | Option.none => (.ok (), w)
    | some _ =>
      if !w.AMap then (.ok (), w)
      else
        let markup := "<div id=\"navigation-map-container\" style=\"width: 100%; height: 400px;\"></div>"
        Act.block
          [ sdkCall host (.newMap "navigation-map-container"),
            addNavigationMarkers host ]
          { w with navigationMap := some markup }

/-- The method `setupMapContainers()`. -/
def setupMapContainers (host : Host) : Act :=
  Act.block [enter .setupMapContainers, initOverviewMap host, initNavigationMap host]

/-- The method `fallbackToLeaflet()`. -/
def fallbackToLeaflet (w : Window) : Window :=
  { w with events := w.events ++ [.enter .fallbackToLeaflet, .console "使用Leaflet地图作为备用方案"] }

/-- The `catch` block of `initAmap` (lines 16-19). -/
def catchLoadFailure (error : JSError) (w : Window) : Window :=
  fallbackToLeaflet
    { w with events := w.events ++ [.console ("高德地图加载失败，使用备用地图方案 " ++ error)] }

/-- The async method `initAmap()`, run until it ends (or waits for ever), the
loader script behaving as `script` says. -/
def initAmap (host : Host) (script : ScriptEvent) (w : Window) : Window :=
  let (w1, promise) := loadAmapScript w
  match awaitLoad promise script w1 with
  | (.never, w2) => w2
  | (.rejected error, w2) => catchLoadFailure error w2
  | (.fulfilled, w2) =>
    match setupMapContainers host w2 with
    | (.ok _, w3) => w3
    | (.error error, w3) => catchLoadFailure error w3

/-- The two refresh functions. -/
inductive Refresh where
  | updateWeatherInfo
  | updateTrafficInfo
  deriving DecidableEq, Repr

/-- A statement of the `DOMContentLoaded` handler. -/
inductive StartupStep where
  | newAmapIntegration
  | call (f : Refresh)
  | setInterval (f : Refresh) (delay : Nat)
  deriving DecidableEq, Repr

/-- The body of the `DOMContentLoaded` handler, statement by statement. -/
def domContentLoaded : List StartupStep :=
  [.newAmapIntegration, .call .updateWeatherInfo, .setInterval .updateTrafficInfo 300000]

/-- The delays of the recurring timers a handler body registers for `f`. -/
def timerDelays (f : Refresh) : List StartupStep → List Nat
  | [] => []
  | .setInterval g delay :: rest =>
    if g = f then delay :: timerDelays f rest else timerDelays f rest
  | _ :: rest => timerDelays f rest

/-- How many times `f` has been started `t` milliseconds after the handler
ran: once for each direct call, and for each recurring timer once per full
delay elapsed (a timer first fires one delay after it was registered). -/
def startsBy (steps : List StartupStep) (f : Refresh) (t : Nat) : Nat :=
  steps.count (.call f) + ((timerDelays f steps).map (fun delay => t / delay)).sum


/-! ## Auxiliary notions for the proofs -/

/-- The piece of code `a` only appends events, none of them `avoided`. -/
def AppendsWithout (avoided : Event) (a : Act) : Prop :=
  ∀ w, ∃ suffix, (a w).2.events = w.events ++ suffix ∧ avoided ∉ suffix

/-- C5, as the code has it. A call of `loadAmapScript` made while `window.AMap`
is absent appends one loader script and returns a pending promise, and leaves
`window.AMap` absent: so two calls made before the first has resolved append
the loader script twice. When `window.AMap` is present, a call resolves at
once and changes nothing. -/
theorem loadAmapScript_appends_per_call (w : Window) :
    (w.AMap = false →
      (loadAmapScript w).2 = .pending
      ∧ (loadAmapScript w).1.headScripts = w.headScripts ++ [amapScriptSrc]
      ∧ (loadAmapScript w).1.AMap = false
      ∧ (loadAmapScript (loadAmapScript w).1).2 = .pending
      ∧ (loadAmapScript (loadAmapScript w).1).1.headScripts
          = w.headScripts ++ [amapScriptSrc, amapScriptSrc]
      ∧ (loadAmapScript (loadAmapScript w).1).1.headScripts.count amapScriptSrc
          = w.headScripts.count amapScriptSrc + 2)
    ∧ (w.AMap = true → loadAmapScript w = (w, .resolved)) := by
  constructor
  · intro h
    simp [loadAmapScript, h]
  · intro h
    simp [loadAmapScript, h]

/-- C5 fails as stated: from a document without scripts and without
`window.AMap`, two calls of `loadAmapScript` leave two loader scripts in
`document.head`, not one. -/
theorem loadAmapScript_twice_appends_twice :
    (loadAmapScript (loadAmapScript ⟨false, [], none, none, []⟩).1).1.headScripts
        = [amapScriptSrc, amapScriptSrc]
    ∧ (loadAmapScript (loadAmapScript ⟨false, [], none, none, []⟩).1).1.headScripts.count
          amapScriptSrc ≠ 1 := by
  decide

/-! ## C7: what the page-ready handler starts -/

/-- C7, as the code has it. The `DOMContentLoaded` handler calls
`updateWeatherInfo` once and `updateTrafficInfo` not at all; it registers one
recurring timer, for `updateTrafficInfo` every 300000 ms, and none for
`updateWeatherInfo`. So at every time `t` (in ms) the weather refresh has been
started once, and the traffic refresh `t / 300000` times: not before 300000 ms
have passed. -/
theorem domContentLoaded_schedule :
    domContentLoaded.count (.call .updateWeatherInfo) = 1
    ∧ domContentLoaded.count (.call .updateTrafficInfo) = 0
    ∧ timerDelays .updateTrafficInfo domContentLoaded = [300000]
    ∧ timerDelays .updateWeatherInfo domContentLoaded = []
    ∧ (∀ t, startsBy domContentLoaded .updateWeatherInfo t = 1)
    ∧ (∀ t, startsBy domContentLoaded .updateTrafficInfo t = t / 300000)
    ∧ (∀ t, t < 300000 → startsBy domContentLoaded .updateTrafficInfo t = 0) := by
  have hw : ∀ t, startsBy domContentLoaded .updateWeatherInfo t = 1 := fun t => by
    simp [startsBy, domContentLoaded, timerDelays]
  have ht : ∀ t, startsBy domContentLoaded .updateTrafficInfo t = t / 300000 := fun t => by
    simp [startsBy, domContentLoaded, timerDelays]
  refine ⟨by decide, by decide, by decide, by decide, hw, ht, ?_⟩
  intro t h
  rw [ht]
  exact Nat.div_eq_of_lt h

/-- C7 fails as stated: the handler starts no traffic refresh at startup (the
claim says one). -/
theorem domContentLoaded_no_traffic_refresh_at_startup :
    domContentLoaded.count (.call .updateTrafficInfo) ≠ 1
    ∧ startsBy domContentLoaded .updateTrafficInfo 0 = 0 := by
  decide

/-! ## C8: icons and colours of the navigation markers -/

/-- C8, as the code has it. Each category of the fixed set has a non-empty own
icon in `iconMap`; every point of `navPoints` has a category of the set and
carries its colour; and marker construction raises no error for any point: for
a category that is not in the set (and is not the name of a member of
`Object.prototype`) the lookup is `undefined` and the marker is built with the
text `undefined` as its icon. -/
theorem navigationMarker_icons_and_colours :
    (∀ category ∈ ["hotel", "scenic", "service"],
        ∃ icon, iconLookup category = .own icon ∧ icon ≠ "")
    ∧ (∀ point ∈ navPoints,
        (point.type = "hotel" ∧ point.color = "#e74c3c")
        ∨ (point.type = "scenic" ∧ point.color = "#3498db")
        ∨ (point.type = "service" ∧ point.color = "#f39c12"))
    ∧ (∀ hostText point, ∃ marker, navigationMarker hostText point = .ok marker)
    ∧ (∀ hostText point, point.type ∉ ["hotel", "scenic", "service"] →
        point.type ∉ objectPrototypeNames →
        iconLookup point.type = .undefined
        ∧ navigationMarker hostText point = .ok
            { position := point.lnglat
              title := point.name
              content := "<div style=\"background: " ++ point.color
                ++ "; color: white; padding: 3px 8px; border-radius: 10px; font-size: 14px;\">"
                ++ "undefined" ++ "</div>" }) := by
  refine ⟨?_, by decide, fun _ _ => ⟨_, rfl⟩, ?_⟩
  · intro category hmem
    simp only [List.mem_cons, List.mem_singleton, List.not_mem_nil, or_false] at hmem
    rcases hmem with rfl | rfl | rfl
    · exact ⟨"🏨", by decide, by decide⟩
    · exact ⟨"📷", by decide, by decide⟩
    · exact ⟨"⛽", by decide, by decide⟩
  intro hostText point h1 h2
  have hl : iconLookup point.type = .undefined := by
    simp only [List.mem_cons, List.mem_singleton, List.not_mem_nil, or_false, not_or] at h1
    obtain ⟨ha, hb, hc⟩ := h1
    have ha2 : (point.type == "hotel") = false := by simpa using ha
    have hb2 : (point.type == "scenic") = false := by simpa using hb
    have hc2 : (point.type == "service") = false := by simpa using hc
    simp [iconLookup, iconMap, List.lookup, ha2, hb2, hc2, h2]
  refine ⟨hl, ?_⟩
  simp [navigationMarker, hl, Lookup.toString]

/-- C8 fails as stated: for a point of the category `parking`, which is not in
the fixed set, marker construction raises no error and renders the text
`undefined` as the icon. -/
theorem navigationMarker_unknown_category_renders_undefined :
    iconLookup "parking" = .undefined
    ∧ navigationMarker (fun _ => "")
        { lnglat := (dec 11665 (-2), dec 4013 (-2)), name := "停车场", type := "parking",
          color := "#95a5a6" }
      = .ok
        { position := (dec 11665 (-2), dec 4013 (-2))
          title := "停车场"
          content := "<div style=\"background: #95a5a6; color: white; padding: 3px 8px; border-radius: 10px; font-size: 14px;\">undefined</div>" } :=
  ⟨by decide, rfl⟩

/-! ## C9: the route polyline is the closed loop over the overview stops -/

/-- C9. The path of the route polyline is the list of the coordinates of the
overview route points, in order, followed by the coordinate of the first one
again: it has 9 entries for the 8 stops, is not empty, begins and ends with the
same point, and holds more than one distinct point (8 of them). It is the path
`addRoutePolyline` hands to the polyline. -/
theorem routePath_closed_loop :
    (∃ first, (routePoints.map (fun p => p.lnglat)).head? = some first
      ∧ routePath = routePoints.map (fun p => p.lnglat) ++ [first])
    ∧ routePoints.length = 8
    ∧ routePath.length = 9
    ∧ routePath ≠ []
    ∧ routePath.head? = routePath.getLast?
    ∧ 2 ≤ routePath.dedup.length
    ∧ routePath.dedup.length = 8
    ∧ (∀ host w, (addRoutePolyline host w).2.events.take (w.events.length + 2)
        = w.events ++ [.enter .addRoutePolyline, .sdk (.newPolyline routePath)]) := by
  refine ⟨⟨(dec 11665 (-2), dec 4013 (-2)), by decide, by decide⟩, by decide, by decide,
    by decide, by decide, by decide, by decide, ?_⟩
  intro host w
  simp only [addRoutePolyline, Act.block, Act.andThen, enter, sdkCall]
  cases host.sdk (.newPolyline routePath) <;> cases host.sdk .mapAdd <;>
    cases host.sdk .setFitView <;> simp [List.take_append_eq_append_take]


/-! ## C10: search failures go to the callback -/

theorem appendsWithout_andThen (avoided : Event) (a b : Act)
    (ha : AppendsWithout avoided a) (hb : AppendsWithout avoided b) :
    AppendsWithout avoided (a.andThen b) := by
  intro w
  obtain ⟨s1, h1, n1⟩ := ha w
  unfold Act.andThen
  rcases hr : a w with ⟨res, w1⟩
  rw [hr] at h1
  cases res with
  | error e => exact ⟨s1, h1, n1⟩
  | ok u =>
    obtain ⟨s2, h2, n2⟩ := hb w1
    refine ⟨s1 ++ s2, ?_, ?_⟩
    · show (b w1).2.events = w.events ++ (s1 ++ s2)
      rw [h2, h1, List.append_assoc]
    · simp only [List.mem_append, not_or]
      exact ⟨n1, n2⟩

theorem appendsWithout_block (avoided : Event) (acts : List Act)
    (h : ∀ a ∈ acts, AppendsWithout avoided a) :
    AppendsWithout avoided (Act.block acts) := by
  induction acts with
  | nil => exact fun w => ⟨[], by simp [Act.block], by simp⟩
  | cons a rest ih =>
    unfold Act.block
    exact appendsWithout_andThen _ _ _ (h a (List.mem_cons_self _ _))
      (ih fun b hb => h b (List.mem_cons_of_mem _ hb))

theorem appendsWithout_forEach {α : Type} (avoided : Event) (f : α → Act) (xs : List α)
    (h : ∀ x, AppendsWithout avoided (f x)) :
    AppendsWithout avoided (forEach f xs) := by
  induction xs with
  | nil => exact fun w => ⟨[], by simp [forEach], by simp⟩
  | cons x rest ih =>
    unfold forEach
    exact appendsWithout_andThen _ _ _ (h x) ih

theorem appendsWithout_enter (avoided : Event) (method : Method)
    (h : avoided ≠ .enter method) : AppendsWithout avoided (enter method) := by
  intro w
  exact ⟨[.enter method], rfl, by simpa using h⟩

theorem appendsWithout_sdkCall (method : Method) (host : Host) (op : SdkOp) :
    AppendsWithout (.enter method) (sdkCall host op) := by
  intro w
  exact ⟨[.sdk op], rfl, by simp⟩

theorem appendsWithout_markerOps (method : Method) (host : Host) (marker : Marker) :
    AppendsWithout (.enter method)
      (Act.block
        [ sdkCall host (.newMarker marker),
          sdkCall host .newInfoWindow,
          sdkCall host .markerOnClick,
          sdkCall host .mapAdd ]) := by
  apply appendsWithout_block
  intro a ha
  simp only [List.mem_cons, List.mem_singleton, List.not_mem_nil, or_false] at ha
  rcases ha with rfl | rfl | rfl | rfl <;> exact appendsWithout_sdkCall _ _ _

theorem appendsWithout_setupMapContainers (host : Host) :
    AppendsWithout (.enter .fallbackToLeaflet) (setupMapContainers host) := by
  have hOverviewMarkers : AppendsWithout (.enter .fallbackToLeaflet) (addOverviewMarkers host) :=
    appendsWithout_andThen _ _ _ (appendsWithout_enter _ _ (by decide))
      (appendsWithout_forEach _ _ _ fun _ => appendsWithout_markerOps _ _ _)
  have hPolyline : AppendsWithout (.enter .fallbackToLeaflet) (addRoutePolyline host) := by
    apply appendsWithout_block
    intro a ha
    simp only [List.mem_cons, List.mem_singleton, List.not_mem_nil, or_false] at ha
    rcases ha with rfl | rfl | rfl | rfl
    · exact appendsWithout_enter _ _ (by decide)
    · exact appendsWithout_sdkCall _ _ _
    · exact appendsWithout_sdkCall _ _ _
    · exact appendsWithout_sdkCall _ _ _
  have hNavMarkers : AppendsWithout (.enter .fallbackToLeaflet) (addNavigationMarkers host) := by
    refine appendsWithout_andThen _ _ _ (appendsWithout_enter _ _ (by decide))
      (appendsWithout_forEach _ _ _ fun point => ?_)
    simp only [navigationMarker]
    exact appendsWithout_markerOps _ _ _
  have hOverview : AppendsWithout (.enter .fallbackToLeaflet) (initOverviewMap host) := by
    refine appendsWithout_andThen _ _ _ (appendsWithout_enter _ _ (by decide)) ?_
    intro w
    cases hm : w.overviewMap with
    | none => exact ⟨[], by simp [hm], by simp⟩
    | some markup =>
      cases hA : w.AMap
      · exact ⟨[], by simp [hm, hA], by simp⟩
      · have hb : AppendsWithout (.enter .fallbackToLeaflet)
            (Act.block
              [ sdkCall host (.newMap "overview-map-container"),
                addOverviewMarkers host,
                addRoutePolyline host ]) := by
          apply appendsWithout_block
          intro a ha
          simp only [List.mem_cons, List.mem_singleton, List.not_mem_nil, or_false] at ha
          rcases ha with rfl | rfl | rfl
          · exact appendsWithout_sdkCall _ _ _
          · exact hOverviewMarkers
          · exact hPolyline
        obtain ⟨suffix, hs, hn⟩ := hb { w with overviewMap :=
          (some "<div id=\"overview-map-container\" style=\"width: 100%; height: 400px;\"></div>") }
        exact ⟨suffix, by simpa [hm, hA] using hs, hn⟩
  have hNavigation : AppendsWithout (.enter .fallbackToLeaflet) (initNavigationMap host) := by
    refine appendsWithout_andThen _ _ _ (appendsWithout_enter _ _ (by decide)) ?_
    intro w
    cases hm : w.navigationMap with
    | none => exact ⟨[], by simp [hm], by simp⟩
    | some markup =>
      cases hA : w.AMap
      · exact ⟨[], by simp [hm, hA], by simp⟩
      · have hb : AppendsWithout (.enter .fallbackToLeaflet)
            (Act.block
              [ sdkCall host (.newMap "navigation-map-container"),
                addNavigationMarkers host ]) := by
          apply appendsWithout_block
          intro a ha
          simp only [List.mem_cons, List.mem_singleton, List.not_mem_nil, or_false] at ha
          rcases ha with rfl | rfl
          · exact appendsWithout_sdkCall _ _ _
          · exact hNavMarkers
        obtain ⟨suffix, hs, hn⟩ := hb { w with navigationMap :=
          (some "<div id=\"navigation-map-container\" style=\"width: 100%; height: 400px;\"></div>") }
        exact ⟨suffix, by simpa [hm, hA] using hs, hn⟩
  apply appendsWithout_block
  intro a ha
  simp only [List.mem_cons, List.mem_singleton, List.not_mem_nil, or_false] at ha
  rcases ha with rfl | rfl | rfl
  · exact appendsWithout_enter _ _ (by decide)
  · exact hOverview
  · exact hNavigation

theorem count_catchLoadFailure (error : JSError) (w : Window) :
    (catchLoadFailure error w).events.count (.enter .fallbackToLeaflet)
        = w.events.count (.enter .fallbackToLeaflet) + 1
    ∧ (catchLoadFailure error w).events.count (.enter .setupMapContainers)
        = w.events.count (.enter .setupMapContainers) := by
  simp [catchLoadFailure, fallbackToLeaflet, List.count_append, List.count_cons]


/-! ## C6: the fallback runs exactly when loading fails -/

/-- C6. In `initAmap`, when the promise of `loadAmapScript` is rejected (that
is: `window.AMap` was absent and the loader script fired `onerror`),
`fallbackToLeaflet` is entered exactly once and `setupMapContainers` is not
entered; when the promise is fulfilled and `setupMapContainers` returns
without throwing, `fallbackToLeaflet` is not entered. -/
theorem initAmap_fallback_on_load_failure (host : Host) (script : ScriptEvent) (w : Window) :
    (∀ error, (awaitLoad (loadAmapScript w).2 script (loadAmapScript w).1).1 = .rejected error →
        (initAmap host script w).events.count (.enter .fallbackToLeaflet)
            = w.events.count (.enter .fallbackToLeaflet) + 1
        ∧ (initAmap host script w).events.count (.enter .setupMapContainers)
            = w.events.count (.enter .setupMapContainers))
    ∧ ((awaitLoad (loadAmapScript w).2 script (loadAmapScript w).1).1 = .fulfilled →
        (setupMapContainers host
            (awaitLoad (loadAmapScript w).2 script (loadAmapScript w).1).2).1 = .ok () →
        (initAmap host script w).events.count (.enter .fallbackToLeaflet)
            = w.events.count (.enter .fallbackToLeaflet))
    ∧ ((∃ error, (awaitLoad (loadAmapScript w).2 script (loadAmapScript w).1).1
            = .rejected error)
        ↔ w.AMap = false ∧ script = .error) := by
  have hsetup : ∀ w2 : Window, w2.events = w.events →
      (setupMapContainers host w2).2.events.count (.enter .fallbackToLeaflet)
        = w.events.count (.enter .fallbackToLeaflet) := by
    intro w2 hw2
    obtain ⟨suffix, hs, hn⟩ := appendsWithout_setupMapContainers host w2
    rw [hs, List.count_append, List.count_eq_zero_of_not_mem hn, hw2, Nat.add_zero]
  have hfulfilled : ∀ w2 : Window, w2.events = w.events →
      (setupMapContainers host w2).1 = .ok () →
      (match setupMapContainers host w2 with
        | (Except.ok _, w3) => w3
        | (Except.error error, w3) => catchLoadFailure error w3).events.count
          (Event.enter .fallbackToLeaflet) = w.events.count (.enter .fallbackToLeaflet) := by
    intro w2 hw2 hok
    have := hsetup w2 hw2
    rcases hr : setupMapContainers host w2 with ⟨res, w3⟩
    rw [hr] at this hok
    simp only at hok
    subst hok
    exact this
  cases hA : w.AMap
  · cases script with
    | load definesAMap =>
      refine ⟨?_, ?_, ?_⟩
      · intro error h
        simp [loadAmapScript, awaitLoad, hA] at h
      · intro _ hok
        simp only [initAmap, loadAmapScript, awaitLoad, hA, Bool.false_eq_true, if_false] at hok ⊢
        exact hfulfilled _ (by rfl) hok
      · simp [loadAmapScript, awaitLoad, hA]
    | error =>
      refine ⟨?_, ?_, ?_⟩
      · intro error _
        simp only [initAmap, loadAmapScript, awaitLoad, hA, Bool.false_eq_true, if_false]
        exact count_catchLoadFailure _ _
      · intro h
        simp [loadAmapScript, awaitLoad, hA] at h
      · simp [loadAmapScript, awaitLoad, hA]
    | none =>
      refine ⟨?_, ?_, ?_⟩
      · intro error h
        simp [loadAmapScript, awaitLoad, hA] at h
      · intro h
        simp [loadAmapScript, awaitLoad, hA] at h
      · simp [loadAmapScript, awaitLoad, hA]
  · refine ⟨?_, ?_, ?_⟩
    · intro error h
      simp [loadAmapScript, awaitLoad, hA] at h
    · intro _ hok
      simp only [initAmap, loadAmapScript, awaitLoad, hA, if_true] at hok ⊢
      exact hfulfilled _ (by rfl) hok
    · simp [loadAmapScript, awaitLoad, hA]

end Amap
